import Mathlib

/-!
Verification development for the terraform-llm-poc repository.

The definitions below are a shallow embedding of the Python sources
`src/api/ollama_service.py` and `src/api/terraform_service.py`:

* `PyObj` models the values `json.loads` can return.
* `json_loads` models Python's strict `json.loads` (JSON whitespace,
  strings with escapes, numbers kept as their lexeme, `NaN`/`Infinity`
  constants, rejection of trailing data).  Recursion is fuelled; callers
  supply fuel exceeding the input length, so the fuel never runs out on
  the inputs evaluated here.
* `re_findall_fence`, `brace_span`, `strReplace`, `reSub` model the exact
  regular-expression and `str.replace` operations used by the source
  (the fence pattern, the first-to-last-brace search, the literal
  substitutions, and `re.sub` of the provider/terraform block patterns).
* `extract_json_from_response`, `extract_terraform_code`,
  `clean_terraform_code` mirror `TerraformCodeExtractor`;
  `clean_terraform_file` mirrors
  `DockerProviderConfigService.clean_terraform_file`'s content rewrite.
* `generate_terraform_step`, `handle_clarification_step`,
  `regenerate_code_step` mirror the endpoint cores of
  `ollama_service.py`; `ValidateCommand_execute`, `DeployCommand_execute`
  mirror the command objects of `terraform_service.py`, with the
  external tool's exit codes and outputs passed in as data.
-/

/-- Python objects produced by `json.loads`: numbers are kept as their
source lexeme, objects as insertion-ordered key/value lists (later
duplicate keys overwrite, as in a Python dict). -/
inductive PyObj where
  | pynone
  | pybool (b : Bool)
  | pynum (lexeme : String)
  | pystr (s : String)
  | pylist (xs : List PyObj)
  | pydict (kvs : List (String × PyObj))

/-- ASCII whitespace recognized by Python's `str.strip` and by `\s` in
`re` patterns (the sources only ever see ASCII model output). -/
def isPyWs (c : Char) : Bool :=
  c = ' ' || c = '\t' || c = '\n' || c = '\r' || c = '\x0b' || c = '\x0c'

/-- JSON whitespace (` \t\n\r`), as skipped by Python's json decoder. -/
def isJsonWs (c : Char) : Bool :=
  c = ' ' || c = '\t' || c = '\n' || c = '\r'

def stripLead (l : List Char) : List Char := l.dropWhile isPyWs

def stripTrail (l : List Char) : List Char := (l.reverse.dropWhile isPyWs).reverse

def pyStripL (l : List Char) : List Char := stripTrail (stripLead l)

/-- Python `str.strip()`. -/
def pyStrip (s : String) : String := ⟨pyStripL s.data⟩

/-- Python `str.lower()` (ASCII). -/
def pyLower (s : String) : String := ⟨s.data.map Char.toLower⟩

/-- All suffixes of a list, longest first. -/
def sfx : List Char → List (List Char)
  | [] => [[]]
  | c :: cs => (c :: cs) :: sfx cs

/-- Split a character list at every occurrence of `c` (Python
`str.split(c)`: empty pieces are kept). -/
def splitCh (c : Char) : List Char → List (List Char)
  | [] => [[]]
  | a :: as =>
    if a = c then [] :: splitCh c as
    else
      match splitCh c as with
      | h :: t => (a :: h) :: t
      | [] => [[a]]

/-- Python `str.split('\n')`. -/
def splitNl (s : String) : List String := (splitCh '\n' s.data).map (fun l => ⟨l⟩)

/-- Python `c in s` for a single character. -/
def containsChar (s : String) (c : Char) : Bool := s.data.any (fun a => a = c)

/-- Python `str.startswith`. -/
def startsWithStr (s pat : String) : Bool := pat.data.isPrefixOf s.data

/-- Python `str.endswith`. -/
def endsWithStr (s pat : String) : Bool := pat.data.isSuffixOf s.data

/-- `sep.join xs`. -/
def joinSep (sep : String) : List String → String
  | [] => ""
  | [x] => x
  | x :: y :: t => ⟨x.data ++ sep.data ++ (joinSep sep (y :: t)).data⟩

/-- Python's `pat in s` substring test. -/
def containsStr (s pat : String) : Bool :=
  (sfx s.data).any (fun t => pat.data.isPrefixOf t)

/-- Python `str.replace(pat, rep)` (all non-overlapping occurrences,
left to right); `fuel` is instantiated with the string length, which
suffices because every step consumes at least one character for the
non-empty literal patterns used by the source. -/
def replFuel (pat rep : List Char) : Nat → List Char → List Char
  | _, [] => []
  | 0, s => s
  | Nat.succ n, c :: cs =>
    if pat.isPrefixOf (c :: cs) then rep ++ replFuel pat rep n ((c :: cs).drop pat.length)
    else c :: replFuel pat rep n cs

def strReplace (s pat rep : String) : String :=
  ⟨replFuel pat.data rep.data s.data.length s.data⟩

/-- `re.sub(pattern, "", s)` for a deterministic matcher `m` that returns
the rest of the input after a match: scan left to right, drop each
match, continue after it.  The matchers used here always consume at
least one character; the length guard only serves termination. -/
def subFuel (m : List Char → Option (List Char)) : Nat → List Char → List Char
  | _, [] => []
  | 0, s => s
  | Nat.succ n, c :: cs =>
    match m (c :: cs) with
    | some rest => if rest.length < cs.length + 1 then subFuel m n rest else c :: subFuel m n cs
    | none => c :: subFuel m n cs

def reSub (m : List Char → Option (List Char)) (s : String) : String :=
  ⟨subFuel m s.data.length s.data⟩

/-- Is there a match of `m` at any position of `s`? -/
def hasMatchStr (m : List Char → Option (List Char)) (s : String) : Bool :=
  (sfx s.data).any (fun t => (m t).isSome)

/-- Consume a literal. -/
def dropLit (lit : List Char) (s : List Char) : Option (List Char) :=
  if lit.isPrefixOf s then some (s.drop lit.length) else none

/-- Consume `\s+` (greedy; the following token is never whitespace, so
maximal munch is exact). -/
def dropWs1 : List Char → Option (List Char)
  | [] => none
  | c :: cs => if isPyWs c then some (cs.dropWhile isPyWs) else none

/-- Consume `[^}]*\}`. -/
def dropBraceTail (s : List Char) : Option (List Char) :=
  match s.dropWhile (fun c => c ≠ '}') with
  | _ :: rest => some rest
  | [] => none

/-- Consume `[^"]+"`. -/
def dropQuoted (s : List Char) : Option (List Char) :=
  if (s.takeWhile (fun c => c ≠ '"')).isEmpty then none
  else
    match s.dropWhile (fun c => c ≠ '"') with
    | _ :: rest => some rest
    | [] => none

/-- Matcher for `provider\s+"docker"\s+\{[^}]*\}` at the head of the
input (used by `clean_terraform_code`). -/
def matchProviderDockerBlock (s : List Char) : Option (List Char) :=
  (dropLit "provider".data s).bind fun s =>
  (dropWs1 s).bind fun s =>
  (dropLit "\"docker\"".data s).bind fun s =>
  (dropWs1 s).bind fun s =>
  (dropLit ['{'] s).bind fun s =>
  dropBraceTail s

/-- Matcher for `terraform\s+\{[^}]*\}` at the head of the input. -/
def matchTerraformBlock (s : List Char) : Option (List Char) :=
  (dropLit "terraform".data s).bind fun s =>
  (dropWs1 s).bind fun s =>
  (dropLit ['{'] s).bind fun s =>
  dropBraceTail s

/-- Matcher for `provider\s+"[^"]+"\s+\{[^}]*\}` at the head of the
input (used by `clean_terraform_file`). -/
def matchProviderAnyBlock (s : List Char) : Option (List Char) :=
  (dropLit "provider".data s).bind fun s =>
  (dropWs1 s).bind fun s =>
  (dropLit ['"'] s).bind fun s =>
  (dropQuoted s).bind fun s =>
  (dropWs1 s).bind fun s =>
  (dropLit ['{'] s).bind fun s =>
  dropBraceTail s

/-! ## JSON parser (model of Python `json.loads`) -/

/-- Hex digit value. -/
def hexVal (c : Char) : Nat :=
  if c.isDigit then c.toNat - 48
  else if 'a' ≤ c ∧ c ≤ 'f' then c.toNat - 87
  else if 'A' ≤ c ∧ c ≤ 'F' then c.toNat - 55
  else 0

/-- Is `c` a hex digit? -/
def isHexDig (c : Char) : Bool :=
  c.isDigit || ('a' ≤ c && c ≤ 'f') || ('A' ≤ c && c ≤ 'F')

/-- Parse the body of a JSON string after the opening quote: returns the
decoded characters and the rest after the closing quote.  Strict mode:
unescaped control characters are rejected.  `\uXXXX` escapes decode via
`Char.ofNat` (surrogate escapes, which Lean chars cannot represent, do
not occur in the inputs considered here). -/
def parseJStr : List Char → Option (List Char × List Char)
  | [] => none
  | '"' :: rest => some ([], rest)
  | '\\' :: '"' :: r => (parseJStr r).map (fun p => ('"' :: p.1, p.2))
  | '\\' :: '\\' :: r => (parseJStr r).map (fun p => ('\\' :: p.1, p.2))
  | '\\' :: '/' :: r => (parseJStr r).map (fun p => ('/' :: p.1, p.2))
  | '\\' :: 'b' :: r => (parseJStr r).map (fun p => ('\x08' :: p.1, p.2))
  | '\\' :: 'f' :: r => (parseJStr r).map (fun p => ('\x0c' :: p.1, p.2))
  | '\\' :: 'n' :: r => (parseJStr r).map (fun p => ('\n' :: p.1, p.2))
  | '\\' :: 'r' :: r => (parseJStr r).map (fun p => ('\r' :: p.1, p.2))
  | '\\' :: 't' :: r => (parseJStr r).map (fun p => ('\t' :: p.1, p.2))
  | '\\' :: 'u' :: a :: b :: c :: d :: r =>
    if isHexDig a && isHexDig b && isHexDig c && isHexDig d then
      (parseJStr r).map (fun p =>
        (Char.ofNat (4096 * hexVal a + 256 * hexVal b + 16 * hexVal c + hexVal d) :: p.1, p.2))
    else none
  | '\\' :: _ :: _ => none
  | ['\\'] => none
  | c :: rest =>
    if c.toNat < 32 then none
    else (parseJStr rest).map (fun p => (c :: p.1, p.2))

/-- JSON number per Python's `NUMBER_RE`:
`(-?(?:0|[1-9]\d*))(\.\d+)?([eE][-+]?\d+)?`.  Returns the lexeme and
the rest. -/
def parseJNum (s : List Char) : Option (List Char × List Char) :=
  let (sgn, s1) := match s with
    | '-' :: r => (['-'], r)
    | _ => (([] : List Char), s)
  let ipart : Option (List Char × List Char) := match s1 with
    | '0' :: r => some (['0'], r)
    | c :: _ =>
      if c.isDigit ∧ c ≠ '0' then
        some (s1.takeWhile Char.isDigit, s1.dropWhile Char.isDigit)
      else none
    | [] => none
  match ipart with
  | none => none
  | some (ip, r1) =>
    let (fp, r2) : List Char × List Char := match r1 with
      | '.' :: t =>
        if (t.takeWhile Char.isDigit).isEmpty then ([], r1)
        else ('.' :: t.takeWhile Char.isDigit, t.dropWhile Char.isDigit)
      | _ => ([], r1)
    let (ep, r3) : List Char × List Char := match r2 with
      | e :: t =>
        if e = 'e' ∨ e = 'E' then
          let (sg, t2) : List Char × List Char := match t with
            | '+' :: u => (['+'], u)
            | '-' :: u => (['-'], u)
            | _ => ([], t)
          if (t2.takeWhile Char.isDigit).isEmpty then ([], r2)
          else (e :: (sg ++ t2.takeWhile Char.isDigit), t2.dropWhile Char.isDigit)
        else ([], r2)
      | [] => ([], r2)
    some (sgn ++ ip ++ fp ++ ep, r3)

/-- Skip JSON whitespace. -/
def skipJWs (s : List Char) : List Char := s.dropWhile isJsonWs

/-- Insert a key/value pair into a Python dict model: a duplicate key
overwrites the existing value in place, as in a Python dict. -/
def insertPy (kvs : List (String × PyObj)) (k : String) (v : PyObj) :
    List (String × PyObj) :=
  if kvs.any (fun p => p.1 == k) then
    kvs.map (fun p => if p.1 == k then (k, v) else p)
  else kvs ++ [(k, v)]

mutual

/-- Parse one JSON value at the head of the input (no leading
whitespace), as Python's `scanner._scan_once`: string, object, array,
`null`, `true`, `false`, number, then the `NaN`/`Infinity`/`-Infinity`
constants. -/
def parseJVal : Nat → List Char → Option (PyObj × List Char)
  | 0, _ => none
  | Nat.succ n, s =>
    match s with
    | '"' :: r => (parseJStr r).map (fun p => (PyObj.pystr ⟨p.1⟩, p.2))
    | '{' :: r =>
      (match skipJWs r with
       | '}' :: r2 => some (PyObj.pydict [], r2)
       | '"' :: r2 => parseJObjLoop n [] r2
       | _ => none)
    | '[' :: r =>
      (match skipJWs r with
       | ']' :: r2 => some (PyObj.pylist [], r2)
       | t => parseJArrLoop n [] t)
    | _ =>
      if "null".data.isPrefixOf s then some (PyObj.pynone, s.drop 4)
      else if "true".data.isPrefixOf s then some (PyObj.pybool true, s.drop 4)
      else if "false".data.isPrefixOf s then some (PyObj.pybool false, s.drop 5)
      else
        match parseJNum s with
        | some (lex, rest) => some (PyObj.pynum ⟨lex⟩, rest)
        | none =>
          if "NaN".data.isPrefixOf s then some (PyObj.pynum "NaN", s.drop 3)
          else if "Infinity".data.isPrefixOf s then
            some (PyObj.pynum "Infinity", s.drop 8)
          else if "-Infinity".data.isPrefixOf s then
            some (PyObj.pynum "-Infinity", s.drop 9)
          else none

/-- Array elements: positioned at the start of a value; after a value,
skip whitespace and expect `,` (then more) or `]` (done). -/
def parseJArrLoop : Nat → List PyObj → List Char → Option (PyObj × List Char)
  | 0, _, _ => none
  | Nat.succ n, acc, s =>
    match parseJVal n s with
    | none => none
    | some (v, rest) =>
      match skipJWs rest with
      | ']' :: r2 => some (PyObj.pylist (acc ++ [v]), r2)
      | ',' :: r2 => parseJArrLoop n (acc ++ [v]) (skipJWs r2)
      | _ => none

/-- Object members: positioned right after the opening quote of a key.
Strict per Python's `JSONObject`: `"key" ws : ws value ws (,"... | })`. -/
def parseJObjLoop : Nat → List (String × PyObj) → List Char →
    Option (PyObj × List Char)
  | 0, _, _ => none
  | Nat.succ n, acc, s =>
    match parseJStr s with
    | none => none
    | some (k, r1) =>
      match skipJWs r1 with
      | ':' :: r2 =>
        (match parseJVal n (skipJWs r2) with
         | none => none
         | some (v, r3) =>
           let acc2 := insertPy acc ⟨k⟩ v
           match skipJWs r3 with
           | '}' :: r4 => some (PyObj.pydict acc2, r4)
           | ',' :: r4 =>
             (match skipJWs r4 with
              | '"' :: r5 => parseJObjLoop n acc2 r5
              | _ => none)
           | _ => none)
      | _ => none

end

/-- Model of Python `json.loads`: leading/trailing whitespace allowed,
anything after one complete value is "Extra data" (a parse failure). -/
def json_loads (s : String) : Option PyObj :=
  let cs := skipJWs s.data
  match parseJVal (cs.length + 2) cs with
  | some (v, rest) => if skipJWs rest = [] then some v else none
  | none => none

/-! ## Fence-block findall (the `re.findall` patterns of the source) -/

/-- Scan to the first occurrence of ` ``` `, returning the characters
before it and the rest after it. -/
def findTicks : List Char → Option (List Char × List Char)
  | [] => none
  | c :: cs =>
    if ['`', '`', '`'].isPrefixOf (c :: cs) then some ([], (c :: cs).drop 3)
    else (findTicks cs).map (fun p => (c :: p.1, p.2))

/-- Try to match one fenced block at the head of the input, per the
pattern ` ```(?:label)?\s*([\s\S]*?)\s*``` `: optional label (tried in
the regex's alternation order, case-sensitively), greedy `\s*`, lazy
body up to the first closing fence with the whitespace run before it
going to the second `\s*`.  Returns the captured group and the rest
after the match. -/
def matchFenceAt (labels : List (List Char)) (s : List Char) :
    Option (String × List Char) :=
  if ['`', '`', '`'].isPrefixOf s then
    let t := s.drop 3
    let t := match labels.find? (fun l => l.isPrefixOf t) with
      | some l => t.drop l.length
      | none => t
    let t := t.dropWhile isPyWs
    match findTicks t with
    | some (pre, rest) => some (⟨(pre.reverse.dropWhile isPyWs).reverse⟩, rest)
    | none => none
  else none

/-- `re.findall` of a fence pattern: scan every position left to right,
resuming after each non-overlapping match. -/
def findallFence (labels : List (List Char)) : Nat → List Char → List String
  | 0, _ => []
  | Nat.succ _, [] => []
  | Nat.succ n, c :: cs =>
    match matchFenceAt labels (c :: cs) with
    | some (cap, rest) => cap :: findallFence labels n rest
    | none => findallFence labels n cs

/-- `re.findall(r"```(?:json)?\s*([\s\S]*?)\s*```", s)`. -/
def re_findall_json (s : String) : List String :=
  findallFence ["json".data] (s.data.length + 1) s.data

/-- `re.findall(r"```(?:terraform|hcl)?\s*([\s\S]*?)\s*```", s)`. -/
def re_findall_tf (s : String) : List String :=
  findallFence ["terraform".data, "hcl".data] (s.data.length + 1) s.data

/-- `re.search(r"\{[\s\S]*\}", s)`: the span from the first `{` to the
last `}`, provided the latter comes after the former. -/
def brace_span (s : String) : Option String :=
  match s.data.findIdx? (fun c => c = '{') with
  | none => none
  | some i =>
    match s.data.reverse.findIdx? (fun c => c = '}') with
    | none => none
    | some jr =>
      let j := s.data.length - 1 - jr
      if i < j then some ⟨(s.data.drop i).take (j - i + 1)⟩ else none

/-! ## TerraformCodeExtractor -/

/-- `'provider "kreuzwerker"'`. -/
def kreuzLit : String := "provider \"kreuzwerker\""

/-- `'provider "docker"'`. -/
def provDockerLit : String := "provider \"docker\""

/-- `'source "docker_container"'`. -/
def srcDcLit : String := "source \"docker_container\""

/-- `'resource "docker_container"'`. -/
def resDcLit : String := "resource \"docker_container\""

/-- `'reresource "docker_container"'`. -/
def reresDcLit : String := "reresource \"docker_container\""

/-- `'reresource "'`. -/
def reresQLit : String := "reresource \""

/-- `'resource "'`. -/
def resQLit : String := "resource \""

/-- Step 1 of `clean_terraform_code`: the guarded
`provider "kreuzwerker"` replacement. -/
def cleanKreuz (code : String) : String :=
  if containsStr code kreuzLit then strReplace code kreuzLit provDockerLit else code

/-- Step 2: the guarded `source "docker_container"` replacement. -/
def cleanSrcDc (code : String) : String :=
  if containsStr code srcDcLit then strReplace code srcDcLit resDcLit else code

/-- Step 3: the guarded `reresource "docker_container"` replacement. -/
def cleanReresDc (code : String) : String :=
  if containsStr code reresDcLit then strReplace code reresDcLit resDcLit else code

/-- Step 4: the guarded `reresource "` replacement. -/
def cleanReresQ (code : String) : String :=
  if containsStr code reresQLit then strReplace code reresQLit resQLit else code

/-- `TerraformCodeExtractor.clean_terraform_code`: guarded literal
replacements, then `re.sub` of the `provider "docker"` block pattern,
then of the `terraform` block pattern, then `strip()`. -/
def clean_terraform_code (code : String) : String :=
  pyStrip (reSub matchTerraformBlock (reSub matchProviderDockerBlock
    (cleanReresQ (cleanReresDc (cleanSrcDc (cleanKreuz code))))))

/-- One step of the line scanner of `extract_terraform_code` (state:
are we inside a code block, accumulated lines). -/
def tfLineStep (st : Bool × List String) (line : String) : Bool × List String :=
  let stripped := pyStrip line
  if startsWithStr stripped "resource " || startsWithStr stripped "provider " ||
      startsWithStr stripped "terraform \x7b" || startsWithStr stripped "module " ||
      startsWithStr stripped "variable " || startsWithStr stripped "output " ||
      startsWithStr stripped "locals \x7b" || startsWithStr stripped "data " then
    (true, st.2 ++ [line])
  else if st.1 then
    if stripped ≠ "" && !startsWithStr stripped "#" && !startsWithStr stripped "//" then
      (if stripped = "\x7d" then false else st.1, st.2 ++ [line])
    else st
  else st

/-- `TerraformCodeExtractor.extract_terraform_code`: fenced
terraform/hcl blocks joined by blank lines; else the line scanner; else
the brace/assignment salvage pass; each tier cleaned. -/
def extract_terraform_code (text : String) : String :=
  let caps := re_findall_tf text
  if caps ≠ [] then
    clean_terraform_code (joinSep "\n\n" (caps.map pyStrip))
  else
    let lines := splitNl (pyStrip text)
    let code_lines := (lines.foldl tfLineStep (false, [])).2
    if code_lines ≠ [] then
      clean_terraform_code (joinSep "\n" code_lines)
    else
      let potential := lines.filter (fun l =>
        let st := pyStrip l
        (containsChar st '{' || containsChar st '}' || containsChar st '=') &&
          !startsWithStr st "#" && !startsWithStr st "//")
      if potential ≠ [] then
        clean_terraform_code (joinSep "\n" potential)
      else ""

/-- The dict built when the heuristic fallback detects a clarification. -/
def clarObj (q : String) : PyObj :=
  .pydict [("needs_clarification", .pybool true), ("question", .pystr q)]

/-- The dict built when the heuristic fallback extracts terraform code. -/
def codeObj (c : String) : PyObj :=
  .pydict [("needs_clarification", .pybool false), ("terraform_code", .pystr c)]

/-- The default fallback dict for an unparseable response. -/
def errObj (raw : String) : PyObj :=
  .pydict [("error", .pystr "Could not parse LLM response"),
           ("raw_response", .pystr raw)]

/-- `"needs_clarification" in text.lower() and "question" in text.lower()`. -/
def kwCond (s : String) : Bool :=
  containsStr (pyLower s) "needs_clarification" && containsStr (pyLower s) "question"

/-- The first line of `text.strip().split('\n')` containing a `?`. -/
def firstQLine (s : String) : Option String :=
  (splitNl (pyStrip s)).find? (fun l => containsChar l '?')

/-- `"resource" in text and "{" in text and "}" in text`. -/
def resourceCond (s : String) : Bool :=
  containsStr s "resource" && containsStr s "\x7b" && containsStr s "\x7d"

/-- The terraform-code-or-error tail of the heuristic fallback. -/
def codeOrErr (s : String) : PyObj :=
  if resourceCond s then
    if extract_terraform_code s ≠ "" then codeObj (extract_terraform_code s)
    else errObj s
  else errObj s

/-- The heuristic fallback of `extract_json_from_response`, reached when
every structured parse has failed. -/
def heuristicObj (s : String) : PyObj :=
  if kwCond s then
    match firstQLine s with
    | some line => clarObj (pyStrip line)
    | none => codeOrErr s
  else codeOrErr s

/-- Tier 1: the first fenced block whose stripped capture parses. -/
def tier1First (s : String) : Option PyObj :=
  (re_findall_json s).findSome? (fun cap => json_loads (pyStrip cap))

/-- Tier 3: parse the first-`{`-to-last-`}` span. -/
def braceParse (s : String) : Option PyObj :=
  (brace_span s).bind json_loads

/-- `TerraformCodeExtractor.extract_json_from_response`: fenced json
blocks, then the whole stripped text, then the brace span, each as a
strict JSON parse whose value is returned as-is; otherwise the
heuristic fallback. -/
def extract_json_from_response (s : String) : PyObj :=
  match tier1First s with
  | some v => v
  | none =>
    match json_loads (pyStrip s) with
    | some v => v
    | none =>
      match braceParse s with
      | some v => v
      | none => heuristicObj s

/-! ## DockerProviderConfigService.clean_terraform_file -/

/-- The content rewrite of
`DockerProviderConfigService.clean_terraform_file` (the function reads
the file, applies this transformation, and writes it back): strip any
provider block, strip any terraform block, fix the resource-type typos,
fix the `environment = [` field name.  No final strip. -/
def clean_terraform_file (content : String) : String :=
  let c1 := reSub matchProviderAnyBlock content
  let c2 := reSub matchTerraformBlock c1
  let c3 := if containsStr c2 srcDcLit then strReplace c2 srcDcLit resDcLit else c2
  let c4 := if containsStr c3 reresDcLit then strReplace c3 reresDcLit resDcLit else c3
  let c5 := if containsStr c4 reresQLit then strReplace c4 reresQLit resQLit else c4
  if containsStr c5 "environment = [" then strReplace c5 "environment = [" "env = [" else c5

/-! ## Endpoint cores of ollama_service.py -/

/-- Is a number lexeme numerically zero (`0`, `-0.00`, `0e5`, ...)?
`NaN`/`Infinity` lexemes are non-zero (truthy). -/
def numIsZero (lex : String) : Bool :=
  ((lex.data.takeWhile (fun c => c ≠ 'e' && c ≠ 'E')).filter
    (fun c => c ≠ '-' && c ≠ '.')).all (fun c => c = '0')

/-- Python truthiness of a json-derived value. -/
def pyTruthy : PyObj → Bool
  | .pynone => false
  | .pybool b => b
  | .pynum lex => !numIsZero lex
  | .pystr s => s ≠ ""
  | .pylist xs => !xs.isEmpty
  | .pydict kvs => !kvs.isEmpty

/-- `d.get(k, default)` on the key/value list of a dict. -/
def dictGetD (kvs : List (String × PyObj)) (k : String) (d : PyObj) : PyObj :=
  match kvs.find? (fun p => p.1 == k) with
  | some p => p.2
  | none => d

/-- Outcome of the response-processing tail shared by `/generate` and
`/clarify`: an uncaught Python exception (`AttributeError` when the
parsed response is not a dict, `KeyError` when a truthy
`needs_clarification` comes without a `question`), a clarification
reply (no document write), or a write of `response.get("terraform_code", "")`
to `/shared/main.tf` followed by a non-clarification reply. -/
inductive GenOut where
  | raised (msg : String)
  | clar (q : PyObj)
  | write (code : PyObj)

/-- The response-processing tail of `generate_terraform` (and of
`handle_clarification`), applied to the raw LLM response text. -/
def generate_terraform_step (s : String) : GenOut :=
  match extract_json_from_response s with
  | .pydict kvs =>
    if pyTruthy (dictGetD kvs "needs_clarification" (.pybool false)) then
      match kvs.find? (fun p => p.1 == "question") with
      | some p => .clar p.2
      | none => .raised "KeyError: question"
    else .write (dictGetD kvs "terraform_code" (.pystr ""))
  | _ => .raised "AttributeError: get"

/-- The module-level `ConversationState` of `ollama_service.py`. -/
structure ConvState where
  current_description : String := ""
  needs_clarification : Bool := false
  question : String := ""
  clarification_answers : List (String × String) := []

/-- `handle_clarification`: reject with HTTP 400 when no clarification
is pending (before touching any state); otherwise append the
(question, answer) pair, call the model, and process its response like
`/generate` does.  The returned state is the conversation state after
the call (unchanged on the 400 path).  A non-string `question` value in
a clarification reply is stored unvalidated by the source (pydantic
does not validate plain attribute assignment); only the string case is
modelled, other values leave the stored question unchanged. -/
def handle_clarification_step (st : ConvState) (answer llmResp : String) :
    GenOut × ConvState :=
  if st.needs_clarification = false then
    (.raised "HTTPException 400: No clarification was requested", st)
  else
    let st1 := { st with
      clarification_answers := st.clarification_answers ++ [(st.question, answer)] }
    match generate_terraform_step llmResp with
    | .clar q =>
      (.clar q, { st1 with question := match q with | .pystr qs => qs | _ => st1.question })
    | .write v => (.write v, { st1 with needs_clarification := false })
    | .raised m => (.raised m, st1)

/-- `regenerate_code`: unconditionally take
`response.get("terraform_code", "")`, write it to `/shared/main.tf` and
reply with `needs_clarification=False` — unless the parsed response is
not a dict, in which case `.get` raises `AttributeError` (`none`). -/
def regenerate_code_step (s : String) : Option (Bool × PyObj) :=
  match extract_json_from_response s with
  | .pydict kvs => some (false, dictGetD kvs "terraform_code" (.pystr ""))
  | _ => none

/-! ## terraform_service.py command objects -/

/-- A completed external process (exit code, stdout, stderr). -/
structure Proc where
  returncode : Nat
  stdout : String
  stderr : String

/-- The `ValidationResult` model. -/
structure VResult where
  success : Bool
  stage : Option String
  output : Option String
  init_output : Option String
  validate_output : Option String
  plan_output : Option String

/-- The `DeploymentResult` model. -/
structure DResult where
  success : Bool
  output : String

/-- `ValidateCommand.execute`, with the tool runs supplied as data:
write the providers file, rewrite `main.tf` with
`clean_terraform_file`, then init / validate / plan, short-circuiting
on the first non-zero exit.  Returns the result, the content of
`main.tf` while the tool runs, and the list of tool steps invoked. -/
def ValidateCommand_execute (doc : String) (initR valR planR : Proc) :
    VResult × String × List String :=
  if initR.returncode ≠ 0 then
    (⟨false, some "init", some initR.stderr, none, none, none⟩,
      clean_terraform_file doc, ["init"])
  else if valR.returncode ≠ 0 then
    (⟨false, some "validate", some valR.stderr, none, none, none⟩,
      clean_terraform_file doc, ["init", "validate"])
  else
    (⟨true, none, none, some initR.stdout, some valR.stdout, some planR.stdout⟩,
      clean_terraform_file doc, ["init", "validate", "plan"])

/-- `DeployCommand.execute`: write the providers file, rewrite
`main.tf` with `clean_terraform_file`, run init only when the
`.terraform` marker does not exist, then apply.  Returns the result,
the content of `main.tf` while the tool runs, and the tool steps
invoked. -/
def DeployCommand_execute (doc : String) (tfDirExists : Bool)
    (initR applyR : Proc) : DResult × String × List String :=
  if tfDirExists then
    if applyR.returncode ≠ 0 then
      (⟨false, applyR.stderr⟩, clean_terraform_file doc, ["apply"])
    else (⟨true, applyR.stdout⟩, clean_terraform_file doc, ["apply"])
  else
    if initR.returncode ≠ 0 then
      (⟨false, initR.stderr⟩, clean_terraform_file doc, ["init"])
    else if applyR.returncode ≠ 0 then
      (⟨false, applyR.stderr⟩, clean_terraform_file doc, ["init", "apply"])
    else (⟨true, applyR.stdout⟩, clean_terraform_file doc, ["init", "apply"])

/-! ## Helper lemmas -/

theorem replFuel_of_no_occ (pat rep : List Char) (s : List Char)
    (h : (sfx s).any (fun t => pat.isPrefixOf t) = false) :
    ∀ n, replFuel pat rep n s = s := by
  induction s with
  | nil => intro n; cases n <;> rfl
  | cons c cs ih =>
    intro n
    simp only [sfx, List.any_cons, Bool.or_eq_false_iff] at h
    cases n with
    | zero => rfl
    | succ n =>
      simp only [replFuel, h.1, Bool.false_eq_true, if_false]
      exact congrArg (c :: ·) (ih h.2 n)

theorem strReplace_of_no_occ (s pat rep : String)
    (h : containsStr s pat = false) : strReplace s pat rep = s := by
  unfold containsStr at h
  unfold strReplace
  rw [replFuel_of_no_occ pat.data rep.data s.data h]

theorem subFuel_of_no_match (m : List Char → Option (List Char)) (s : List Char)
    (h : (sfx s).any (fun t => (m t).isSome) = false) :
    ∀ n, subFuel m n s = s := by
  induction s with
  | nil => intro n; cases n <;> rfl
  | cons c cs ih =>
    intro n
    simp only [sfx, List.any_cons, Bool.or_eq_false_iff] at h
    have h1 : m (c :: cs) = none := by
      cases hm : m (c :: cs) with
      | none => rfl
      | some r => rw [hm] at h; simp at h
    cases n with
    | zero => rfl
    | succ n =>
      simp only [subFuel, h1]
      exact congrArg (c :: ·) (ih h.2 n)

theorem reSub_of_no_match (m : List Char → Option (List Char)) (s : String)
    (h : hasMatchStr m s = false) : reSub m s = s := by
  unfold hasMatchStr at h
  unfold reSub
  rw [subFuel_of_no_match m s.data h]

theorem dropWhile_dropWhile (p : Char → Bool) (l : List Char) :
    (l.dropWhile p).dropWhile p = l.dropWhile p := by
  induction l with
  | nil => rfl
  | cons c cs ih =>
    by_cases hc : p c = true
    · rw [List.dropWhile_cons_of_pos hc]; exact ih
    · rw [List.dropWhile_cons_of_neg (by simp [hc]),
        List.dropWhile_cons_of_neg (by simp [hc])]

theorem dropWhile_head_not (p : Char → Bool) (l : List Char) (c : Char)
    (t : List Char) (h : l.dropWhile p = c :: t) : p c = false := by
  induction l with
  | nil => simp [List.dropWhile] at h
  | cons a as ih =>
    by_cases ha : p a = true
    · rw [List.dropWhile_cons_of_pos ha] at h; exact ih h
    · rw [List.dropWhile_cons_of_neg (by simp [ha])] at h
      cases h; simpa using ha

theorem stripTrail_prefix (l : List Char) : stripTrail l <+: l := by
  unfold stripTrail
  obtain ⟨t, ht⟩ := List.dropWhile_suffix (l := l.reverse) isPyWs
  exact ⟨t.reverse, by rw [← List.reverse_append, ht, List.reverse_reverse]⟩

theorem stripTrail_stripTrail (l : List Char) :
    stripTrail (stripTrail l) = stripTrail l := by
  unfold stripTrail
  rw [List.reverse_reverse, dropWhile_dropWhile]

theorem stripLead_stripTrail_of_fix (u : List Char) (hu : stripLead u = u) :
    stripLead (stripTrail u) = stripTrail u := by
  cases h : stripTrail u with
  | nil => rfl
  | cons c t =>
    obtain ⟨r, hr⟩ := h ▸ stripTrail_prefix u
    have hc : isPyWs c = false := by
      by_contra hcc
      have hc' : isPyWs c = true := by
        cases hcx : isPyWs c
        · exact absurd hcx hcc
        · rfl
      have hu2 : u = c :: (t ++ r) := by rw [← hr]; simp
      have hdw : (t ++ r).dropWhile isPyWs = c :: (t ++ r) := by
        have h3 := hu
        rw [hu2] at h3
        unfold stripLead at h3
        rwa [List.dropWhile_cons_of_pos hc'] at h3
      have hle := (List.dropWhile_suffix (l := t ++ r) isPyWs).length_le
      rw [hdw] at hle
      simp at hle
    unfold stripLead
    rw [List.dropWhile_cons_of_neg (by simp [hc])]

theorem pyStripL_idem (l : List Char) : pyStripL (pyStripL l) = pyStripL l := by
  unfold pyStripL
  rw [stripLead_stripTrail_of_fix (stripLead l) (dropWhile_dropWhile isPyWs l),
    stripTrail_stripTrail]

theorem pyStrip_idem (s : String) : pyStrip (pyStrip s) = pyStrip s := by
  unfold pyStrip
  rw [pyStripL_idem]

theorem pyStrip_clean_terraform_code (x : String) :
    pyStrip (clean_terraform_code x) = clean_terraform_code x := by
  unfold clean_terraform_code
  rw [pyStrip_idem]

/-- No rewrite rule of `clean_terraform_code` has anything to match in
`y`: none of the four literals occurs, and neither block pattern
matches anywhere. -/
def cleanTriggerFree (y : String) : Bool :=
  !containsStr y kreuzLit && !containsStr y srcDcLit && !containsStr y reresDcLit &&
    !containsStr y reresQLit && !hasMatchStr matchProviderDockerBlock y &&
    !hasMatchStr matchTerraformBlock y

theorem extract_eq_heuristic (s : String) (h1 : tier1First s = none)
    (h2 : json_loads (pyStrip s) = none) (h3 : braceParse s = none) :
    extract_json_from_response s = heuristicObj s := by
  unfold extract_json_from_response
  rw [h1, h2, h3]

theorem heuristicObj_shape (s : String) :
    (∃ q, heuristicObj s = clarObj q) ∨ (∃ c, heuristicObj s = codeObj c) ∨
      (∃ r, heuristicObj s = errObj r) := by
  unfold heuristicObj codeOrErr
  by_cases hk : kwCond s = true
  · simp only [hk, if_true]
    cases hq : firstQLine s with
    | some line => exact Or.inl ⟨pyStrip line, rfl⟩
    | none =>
      by_cases hr : resourceCond s = true
      · simp only [hr, if_true]
        by_cases ht : extract_terraform_code s ≠ ""
        · rw [if_pos ht]
          exact Or.inr (Or.inl ⟨extract_terraform_code s, rfl⟩)
        · rw [if_neg ht]
          exact Or.inr (Or.inr ⟨s, rfl⟩)
      · simp only [hr, Bool.false_eq_true, if_false]
        exact Or.inr (Or.inr ⟨s, rfl⟩)
  · simp only [hk, Bool.false_eq_true, if_false]
    by_cases hr : resourceCond s = true
    · simp only [hr, if_true]
      by_cases ht : extract_terraform_code s ≠ ""
      · rw [if_pos ht]
        exact Or.inr (Or.inl ⟨extract_terraform_code s, rfl⟩)
      · rw [if_neg ht]
        exact Or.inr (Or.inr ⟨s, rfl⟩)
    · simp only [hr, Bool.false_eq_true, if_false]
      exact Or.inr (Or.inr ⟨s, rfl⟩)

/-- Does a value have the exact shape of the heuristic clarification
dict (`needs_clarification=True` plus a string question)? -/
def isClarShape : PyObj → Bool
  | .pydict [(k1, .pybool true), (k2, .pystr _)] =>
    k1 == "needs_clarification" && k2 == "question"
  | _ => false

/-- Does a value have the exact shape of the heuristic terraform-code
dict? -/
def isCodeShape : PyObj → Bool
  | .pydict [(k1, .pybool false), (k2, .pystr _)] =>
    k1 == "needs_clarification" && k2 == "terraform_code"
  | _ => false

/-- Does a value have the exact shape of the unparseable-fallback dict? -/
def isErrShape : PyObj → Bool
  | .pydict [(k1, .pystr m), (k2, .pystr _)] =>
    k1 == "error" && m == "Could not parse LLM response" && k2 == "raw_response"
  | _ => false

/-- The three structured parse tiers of `extract_json_from_response`
(first parsing fenced block, whole stripped text, brace span), combined
in their source order. -/
def jsonTiers (s : String) : Option PyObj :=
  match tier1First s with
  | some v => some v
  | none =>
    match json_loads (pyStrip s) with
    | some v => some v
    | none => braceParse s

/-! ## Claim theorems -/

/-- C1 (amended): for every raw text, `extract_json_from_response`
terminates and returns either the value of the first successful strict
JSON parse among its three tiers — returned as-is, hence possibly a
non-dict value outside the three outcome variants — or one of the three
fallback dict shapes (clarification, terraform code, error). -/
theorem extract_response_totality_amended (s : String) :
    (∃ v, jsonTiers s = some v ∧ extract_json_from_response s = v) ∨
      (∃ q, extract_json_from_response s = clarObj q) ∨
      (∃ c, extract_json_from_response s = codeObj c) ∨
      (∃ r, extract_json_from_response s = errObj r) := by
  unfold extract_json_from_response
  cases h1 : tier1First s with
  | some v => exact Or.inl ⟨v, by unfold jsonTiers; rw [h1], rfl⟩
  | none =>
    cases h2 : json_loads (pyStrip s) with
    | some v => exact Or.inl ⟨v, by unfold jsonTiers; rw [h1, h2], rfl⟩
    | none =>
      cases h3 : braceParse s with
      | some v => exact Or.inl ⟨v, by unfold jsonTiers; rw [h1, h2, h3], rfl⟩
      | none => exact Or.inr (heuristicObj_shape s)

/-- C1 (counterexample): on input `"42"` the function returns the
number 42 — a successfully parsed non-dict value that is none of the
three outcome variants (and on which the callers' `.get` raises). -/
theorem extract_response_totality_cex :
    extract_json_from_response "42" = PyObj.pynum "42" ∧
      isClarShape (extract_json_from_response "42") = false ∧
      isCodeShape (extract_json_from_response "42") = false ∧
      isErrShape (extract_json_from_response "42") = false :=
  ⟨rfl, rfl, rfl, rfl⟩

/-- C2 (counterexample): the sanitizer is not idempotent.  Deleting a
block can concatenate the surrounding text into a new block pattern:
on `terraform terraform { a } { b }` one pass removes the inner
`terraform { a }` leaving `terraform  { b }`, and a second pass removes
everything. -/
theorem sanitize_idempotent_cex :
    clean_terraform_code
        (clean_terraform_code "terraform terraform \x7b a \x7d \x7b b \x7d") ≠
      clean_terraform_code "terraform terraform \x7b a \x7d \x7b b \x7d" := by
  decide

/-- C2 (amended): `clean_terraform_code` is idempotent on every
document whose sanitized form contains no occurrence of any rewrite
trigger (the three typo/provider literals and the two block
patterns). -/
theorem sanitize_idempotent_amended (x : String)
    (h : cleanTriggerFree (clean_terraform_code x) = true) :
    clean_terraform_code (clean_terraform_code x) = clean_terraform_code x := by
  unfold cleanTriggerFree at h
  simp only [Bool.and_eq_true, Bool.not_eq_true'] at h
  obtain ⟨⟨⟨⟨⟨hk, hs⟩, hrd⟩, hrq⟩, hp⟩, ht⟩ := h
  have e1 : cleanKreuz (clean_terraform_code x) = clean_terraform_code x := by
    unfold cleanKreuz; simp only [hk, Bool.false_eq_true, if_false]
  have e2 : cleanSrcDc (clean_terraform_code x) = clean_terraform_code x := by
    unfold cleanSrcDc; simp only [hs, Bool.false_eq_true, if_false]
  have e3 : cleanReresDc (clean_terraform_code x) = clean_terraform_code x := by
    unfold cleanReresDc; simp only [hrd, Bool.false_eq_true, if_false]
  have e4 : cleanReresQ (clean_terraform_code x) = clean_terraform_code x := by
    unfold cleanReresQ; simp only [hrq, Bool.false_eq_true, if_false]
  conv_lhs => rw [clean_terraform_code.eq_def]
  rw [e1, e2, e3, e4, reSub_of_no_match _ _ hp, reSub_of_no_match _ _ ht]
  exact pyStrip_clean_terraform_code x

/-- C2 (witness): a trigger-free resource block is a fixed point. -/
theorem sanitize_idempotent_amended_witness :
    cleanTriggerFree (clean_terraform_code
        "resource \"docker_image\" \"a\" \x7b name = \"nginx\" \x7d") = true ∧
      clean_terraform_code (clean_terraform_code
          "resource \"docker_image\" \"a\" \x7b name = \"nginx\" \x7d") =
        clean_terraform_code
          "resource \"docker_image\" \"a\" \x7b name = \"nginx\" \x7d" :=
  ⟨by decide, sanitize_idempotent_amended _ (by decide)⟩

/-- C3 (counterexample): when the model reply is a JSON object, its
`terraform_code` field is written to `/shared/main.tf` verbatim — here
a document containing a terraform block — so the write does not strip
model-authored provider/boilerplate blocks. -/
theorem provider_strip_cex :
    generate_terraform_step "\x7b\"terraform_code\": \"terraform \x7b a \x7d\"\x7d" =
        GenOut.write (.pystr "terraform \x7b a \x7d") ∧
      hasMatchStr matchTerraformBlock "terraform \x7b a \x7d" = true :=
  ⟨rfl, rfl⟩

/-- C3 (amended): the `/generate` and `/clarify` writes do not
sanitize a parsed object's `terraform_code`; the provider/boilerplate
stripping instead happens in `validate()`/`deploy()`, which rewrite the
stored document with `clean_terraform_file` before any tool step
runs. -/
theorem provider_strip_amended (doc : String) (i v p ia aa : Proc) (ex : Bool) :
    (ValidateCommand_execute doc i v p).2.1 = clean_terraform_file doc ∧
      (DeployCommand_execute doc ex ia aa).2.1 = clean_terraform_file doc := by
  constructor
  · unfold ValidateCommand_execute
    by_cases h1 : i.returncode ≠ 0
    · rw [if_pos h1]
    · rw [if_neg h1]
      by_cases h2 : v.returncode ≠ 0
      · rw [if_pos h2]
      · rw [if_neg h2]
  · unfold DeployCommand_execute
    cases ex
    · rw [if_neg (by simp)]
      by_cases h1 : ia.returncode ≠ 0
      · rw [if_pos h1]
      · rw [if_neg h1]
        by_cases h2 : aa.returncode ≠ 0
        · rw [if_pos h2]
        · rw [if_neg h2]
    · rw [if_pos rfl]
      by_cases h2 : aa.returncode ≠ 0
      · rw [if_pos h2]
      · rw [if_neg h2]

/-- C4: when `init` exits non-zero, `ValidateCommand.execute` returns
`{stage: "init", success: false}` with init's stderr as output, and
only the init step of the tool was invoked. -/
theorem validate_init_failure_shortcircuit (doc : String) (i v p : Proc)
    (h : i.returncode ≠ 0) :
    ValidateCommand_execute doc i v p =
      (⟨false, some "init", some i.stderr, none, none, none⟩,
        clean_terraform_file doc, ["init"]) := by
  unfold ValidateCommand_execute
  rw [if_pos h]

/-- C4 (witness). -/
theorem validate_init_failure_shortcircuit_witness :
    ValidateCommand_execute "x" ⟨1, "io", "ie"⟩ ⟨0, "vo", "ve"⟩ ⟨0, "po", "pe"⟩ =
      (⟨false, some "init", some "ie", none, none, none⟩,
        clean_terraform_file "x", ["init"]) :=
  validate_init_failure_shortcircuit "x" ⟨1, "io", "ie"⟩ ⟨0, "vo", "ve"⟩
    ⟨0, "po", "pe"⟩ (by decide)

/-- C5: when the `.terraform` marker exists, `DeployCommand.execute`
invokes only the apply step (no init), and its success is apply's exit
status. -/
theorem deploy_skips_init_when_marker_exists (doc : String) (i a : Proc) :
    (DeployCommand_execute doc true i a).2.2 = ["apply"] ∧
      (DeployCommand_execute doc true i a).1.success = (a.returncode == 0) := by
  unfold DeployCommand_execute
  rw [if_pos rfl]
  by_cases h : a.returncode ≠ 0
  · rw [if_pos h]
    have : (a.returncode == 0) = false := by
      simpa using h
    exact ⟨rfl, by rw [this]⟩
  · rw [if_neg h]
    have h0 : a.returncode = 0 := by omega
    have : (a.returncode == 0) = true := by simp [h0]
    exact ⟨rfl, by rw [this]⟩

/-- C6 (counterexample): an unparseable response does not leave the
stored document unchanged — `/generate` falls into the non-clarification
branch and overwrites `/shared/main.tf` with the empty string
(`response.get("terraform_code", "")`). -/
theorem unparseable_write_cex :
    extract_json_from_response "garbage" = errObj "garbage" ∧
      generate_terraform_step "garbage" = GenOut.write (.pystr "") :=
  ⟨rfl, rfl⟩

/-- C6 (amended): whenever interpretation yields the unparseable
fallback dict, the `/generate`/`/clarify` response tail overwrites the
stored document with the empty string rather than leaving it
unchanged. -/
theorem unparseable_write_amended (s r : String)
    (h : extract_json_from_response s = errObj r) :
    generate_terraform_step s = GenOut.write (.pystr "") := by
  unfold generate_terraform_step
  rw [h]
  rfl

/-- C6 (witness). -/
theorem unparseable_write_amended_witness :
    generate_terraform_step "no structured output" = GenOut.write (.pystr "") :=
  unparseable_write_amended "no structured output" "no structured output" rfl

/-- C7: submitting a clarification answer while no clarification is
pending is rejected with HTTP 400 "No clarification was requested",
and the session state is returned unchanged. -/
theorem clarify_idle_rejected (st : ConvState) (ans resp : String)
    (h : st.needs_clarification = false) :
    handle_clarification_step st ans resp =
      (.raised "HTTPException 400: No clarification was requested", st) := by
  unfold handle_clarification_step
  rw [if_pos h]

/-- C7 (witness). -/
theorem clarify_idle_rejected_witness :
    handle_clarification_step ⟨"", false, "", []⟩ "answer" "resp" =
      (.raised "HTTPException 400: No clarification was requested",
        ⟨"", false, "", []⟩) :=
  clarify_idle_rejected ⟨"", false, "", []⟩ "answer" "resp" rfl

/-- C8 (counterexample): the fence label is matched case-sensitively,
not case-insensitively.  This text contains a block labeled `JSON`
whose content is strictly valid JSON with the clarification flag true
and question "Which region?", yet the regex capture includes the label
(so the block fails to parse) and the heuristic tier answers with the
whole JSON line as the question — not "Which region?". -/
theorem fenced_clarification_cex :
    containsStr
        "```JSON\n\x7b\"needs_clarification\": true, \"question\": \"Which region?\"\x7d\n```\n\x7d"
        "```JSON" = true ∧
      json_loads "\x7b\"needs_clarification\": true, \"question\": \"Which region?\"\x7d" =
        some (clarObj "Which region?") ∧
      extract_json_from_response
          "```JSON\n\x7b\"needs_clarification\": true, \"question\": \"Which region?\"\x7d\n```\n\x7d" =
        clarObj "\x7b\"needs_clarification\": true, \"question\": \"Which region?\"\x7d" ∧
      "\x7b\"needs_clarification\": true, \"question\": \"Which region?\"\x7d" ≠
        "Which region?" :=
  ⟨rfl, rfl, rfl, by decide⟩

/-- C8 (amended): with the label matched case-sensitively (lowercase
`json` or unlabeled), when the first successfully parsing fenced block
is the clarification object with question "Which region?",
`extract_json_from_response` returns exactly that object. -/
theorem fenced_clarification_amended (s : String)
    (h : tier1First s = some (clarObj "Which region?")) :
    extract_json_from_response s = clarObj "Which region?" := by
  unfold extract_json_from_response
  rw [h]

/-- C8 (witness). -/
theorem fenced_clarification_amended_witness :
    extract_json_from_response
        "```json\n\x7b\"needs_clarification\": true, \"question\": \"Which region?\"\x7d\n```" =
      clarObj "Which region?" :=
  fenced_clarification_amended
    "```json\n\x7b\"needs_clarification\": true, \"question\": \"Which region?\"\x7d\n```" rfl

/-- C9 (counterexample): the heuristic uses `"?" in line`, not
"ends in `?`": here the first line *containing* a `?` does not end in
`?`, and the first line *ending* in `?` is a later one (`really?`),
yet the synthesized question is the former. -/
theorem heuristic_question_cex :
    extract_json_from_response
        "needs_clarification question\nis this? not sure\nreally?" =
      clarObj "is this? not sure" ∧
      endsWithStr "is this? not sure" "?" = false ∧
      ((splitNl (pyStrip "needs_clarification question\nis this? not sure\nreally?")).find?
          (fun l => endsWithStr l "?")) = some "really?" :=
  ⟨rfl, rfl, rfl⟩

/-- C9 (amended): in the heuristic fallback (all structured parses
failed), when both keywords occur and some line contains a `?`, the
outcome is the clarification dict whose question is the first line
containing `?`, trimmed. -/
theorem heuristic_question_amended (s l : String)
    (h1 : tier1First s = none) (h2 : json_loads (pyStrip s) = none)
    (h3 : braceParse s = none) (h4 : kwCond s = true)
    (h5 : firstQLine s = some l) :
    extract_json_from_response s = clarObj (pyStrip l) := by
  rw [extract_eq_heuristic s h1 h2 h3]
  unfold heuristicObj
  rw [h4]
  simp only [if_true]
  rw [h5]

/-- C9 (witness). -/
theorem heuristic_question_amended_witness :
    extract_json_from_response "needs_clarification question\nok?" =
      clarObj (pyStrip "ok?") :=
  heuristic_question_amended "needs_clarification question\nok?" "ok?"
    rfl rfl rfl rfl rfl

/-- C10 (counterexample): `/regenerate` does not handle every model
response — a response parsing to a non-dict JSON value (here `42`)
makes `response.get` raise `AttributeError`: nothing is returned and
nothing is written. -/
theorem regenerate_no_clarification_cex :
    regenerate_code_step "42" = none ∧
      extract_json_from_response "42" = PyObj.pynum "42" :=
  ⟨rfl, rfl⟩

/-- C10 (amended): for every response whose interpretation yields a
dict — which includes every fallback path and every parsed JSON
object, clarification-flagged or not — `/regenerate` replies with
`needs_clarification=False` and unconditionally writes
`response.get("terraform_code", "")` to the store. -/
theorem regenerate_no_clarification_amended (s : String)
    (kvs : List (String × PyObj))
    (h : extract_json_from_response s = .pydict kvs) :
    regenerate_code_step s =
      some (false, dictGetD kvs "terraform_code" (.pystr "")) := by
  unfold regenerate_code_step
  rw [h]

/-- C10 (witness): a clarification-flagged object still yields
`needs_clarification=False` and a write of the empty default. -/
theorem regenerate_no_clarification_amended_witness :
    regenerate_code_step "\x7b\"needs_clarification\": true, \"question\": \"Q?\"\x7d" =
      some (false, PyObj.pystr "") :=
  regenerate_no_clarification_amended
    "\x7b\"needs_clarification\": true, \"question\": \"Q?\"\x7d"
    [("needs_clarification", .pybool true), ("question", .pystr "Q?")] rfl
